import Mathlib

/-!
The cluster access layer of `article/repository/repository.go`.

A shallow embedding of the package: its three package variables (the writer
handle, the reader handle list and the `sync.Once` guard) form an explicit
state, every call into `database/sql`, `log`, `config` and `helper` is a field
of a `Backend` record, and the calls made and the lines logged are recorded in
the state so that "is attempted", "exactly once" and "in this order" can be
stated.
-/

namespace Repository

/-- A Go `error` that is not nil; a nil error is `none : Option Error`. -/
abbrev Error := String

/-- Modelled from the spec: one endpoint of `config.DatabaseCluster` (the
`config` package is not part of the sources): host, port and the optional
override credentials, read by the code as `Host`, `Port`, `Username` and
`Password`. The port is printed with `%d`, so it is an integer. -/
structure Endpoint where
  Host : String
  Port : Int
  Username : String
  Password : String
deriving DecidableEq, Repr

/-- Modelled from the spec: `config.DatabaseCluster`, with the fields the code
reads. `Read` is dereferenced as `*cfg.Read`, a pointer to a slice: `none` is
the nil pointer. -/
structure DatabaseCluster where
  Driver : String
  Database : String
  Charset : String
  Username : String
  Password : String
  Write : Endpoint
  Read : Option (List Endpoint)
deriving DecidableEq, Repr

/-- An opened `*sql.DB`. `id` tells handles apart (every `sql.Open` makes a new
one), `maxIdleConns` is the limit last given to `SetMaxIdleConns` (2 is the
library default). -/
structure DB where
  id : Nat
  driverName : String
  dataSourceName : String
  maxIdleConns : Int
deriving DecidableEq, Repr

/-- A `*sql.Rows` cursor. -/
structure Rows where
  id : Nat
deriving DecidableEq, Repr

/-- A `*sql.Stmt`. -/
structure Stmt where
  id : Nat
deriving DecidableEq, Repr

/-- A `*sql.Tx`. -/
structure Tx where
  id : Nat
deriving DecidableEq, Repr

/-- A `sql.Result`. -/
structure Result where
  lastInsertId : Int
  rowsAffected : Int
deriving DecidableEq, Repr

/-- A value passed in a variadic `args ...any` list. -/
inductive Arg where
  | null
  | int (i : Int)
  | uint64 (n : Nat)
  | str (s : String)
deriving DecidableEq, Repr

/-- A `*sql.Row`: `QueryRow` runs nothing the caller can see until `Scan`, so
the row remembers the handle, the text and the arguments. -/
structure Row where
  db : DB
  query : String
  args : List Arg
deriving DecidableEq, Repr

/-- One call into `database/sql`, as recorded in the state. -/
inductive Call where
  | sqlOpen (driverName dataSourceName : String)
  | dbClose (db : DB)
  | dbQuery (db : DB) (query : String) (args : List Arg)
  | dbQueryRow (db : DB) (query : String) (args : List Arg)
  | rowScan (row : Row)
  | dbPrepare (db : DB) (query : String)
  | dbExec (db : DB) (query : String) (args : List Arg)
  | dbBegin (db : DB)
  | txPrepare (tx : Tx) (query : String)
  | txExec (tx : Tx) (query : String) (args : List Arg)
  | txRollback (tx : Tx)
  | txCommit (tx : Tx)
  | stmtExec (stmt : Stmt) (args : List Arg)
deriving DecidableEq, Repr

/-- What the collaborators of the package answer: `database/sql` (a pair
`(value, err)` as in Go, `none` being nil), `helper.RandMax` and
`config.App().AppDebug`. -/
structure Backend where
  sqlOpen : String → String → Option Error
  dbClose : DB → Option Error
  dbQuery : DB → String → List Arg → Option Rows × Option Error
  rowScan : Row → Option Nat × Option Error
  dbPrepare : DB → String → Option Stmt × Option Error
  dbExec : DB → String → List Arg → Option Result × Option Error
  dbBegin : DB → Option Tx × Option Error
  txPrepare : Tx → String → Option Stmt × Option Error
  txExec : Tx → String → List Arg → Option Result × Option Error
  txRollback : Tx → Option Error
  txCommit : Tx → Option Error
  stmtExec : Stmt → List Arg → Option Result × Option Error
  RandMax : Int → Int
  AppDebug : Bool

/-- The package variables `_writeDatabase`, `_readDatabases` and `_once` (the
done flag of the `sync.Once`), with the calls made so far and the lines given
to the log sink. -/
structure State where
  _writeDatabase : Option DB
  _readDatabases : List (Option DB)
  _once : Bool
  calls : List Call
  log : List String
deriving DecidableEq, Repr

/-- The state of a freshly loaded package. -/
def State.fresh : State :=
  { _writeDatabase := none, _readDatabases := [], _once := false, calls := [], log := [] }

/-- How a Go call ends: it returns a value or it panics. -/
inductive Go (α : Type) where
  | ret (a : α)
  | panic
deriving DecidableEq, Repr

/-- The target string
`fmt.Sprintf("%s:%s@tcp(%s:%d)/%s?charset=%s&parseTime=true", ...)`. -/
def dataSourceName (username password host : String) (port : Int)
    (database charset : String) : String :=
  username ++ ":" ++ password ++ "@tcp(" ++ host ++ ":" ++ toString port ++ ")/" ++
    database ++ "?charset=" ++ charset ++ "&parseTime=true"

/-- The call `sql.Open(driverName, dataSourceName)`. -/
def sqlOpen (b : Backend) (s : State) (driverName dsn : String) :
    State × Option DB × Option Error :=
  let s1 := { s with calls := s.calls ++ [Call.sqlOpen driverName dsn] }
  match b.sqlOpen driverName dsn with
  | some e => (s1, none, some e)
  | none => (s1, some { id := s.calls.length, driverName := driverName,
                         dataSourceName := dsn, maxIdleConns := 2 }, none)

/-- The call `db.SetMaxIdleConns(n)`. -/
def SetMaxIdleConns (db : DB) (n : Int) : DB :=
  { db with maxIdleConns := n }

/-- Source: `openWriteDatabase`. -/
def openWriteDatabase (b : Backend) (s : State) (cfg : DatabaseCluster) :
    State × Option DB × Option Error :=
  let username :=
    if cfg.Write.Username = "" ∨ cfg.Write.Password = "" then cfg.Username
    else cfg.Write.Username
  let password :=
    if cfg.Write.Username = "" ∨ cfg.Write.Password = "" then cfg.Password
    else cfg.Write.Password
  match sqlOpen b s cfg.Driver
      (dataSourceName username password cfg.Write.Host cfg.Write.Port
        cfg.Database cfg.Charset) with
  | (s1, _, some err) => (s1, none, some err)
  | (s1, db, none) => (s1, db.map (fun d => SetMaxIdleConns d 0), none)

/-- The `for _, r := range *cfg.Read` loop of `openReadDatabases`;
`readDatabases` is the slice built so far. `username` and `password` are
declared before the loop and both assigned in every iteration before they are
read, so no value is carried from one iteration to the next. -/
def openReadDatabasesLoop (b : Backend) (cfg : DatabaseCluster) :
    List Endpoint → State → List (Option DB) → State × List (Option DB) × Option Error
  | [], s, readDatabases => (s, readDatabases, none)
  | r :: rest, s, readDatabases =>
    let username :=
      if r.Username = "" ∨ r.Password = "" then cfg.Username else r.Username
    let password :=
      if r.Username = "" ∨ r.Password = "" then cfg.Password else r.Password
    match sqlOpen b s cfg.Driver
        (dataSourceName username password r.Host r.Port cfg.Database cfg.Charset) with
    | (s1, _, some err) => (s1, [], some err)
    | (s1, db, none) =>
      openReadDatabasesLoop b cfg rest s1
        (readDatabases ++ [db.map (fun d => SetMaxIdleConns d 0)])

/-- Source: `openReadDatabases`. A nil `cfg.Read` panics at `*cfg.Read`. -/
def openReadDatabases (b : Backend) (s : State) (cfg : DatabaseCluster) :
    Go (State × List (Option DB) × Option Error) :=
  match cfg.Read with
  | none => Go.panic
  | some rs => Go.ret (openReadDatabasesLoop b cfg rs s [])

/-- The closure given to `_once.Do` in `Init`: it assigns the package variables
and the captured local `err`, whose new value it gives back. -/
def InitBody (b : Backend) (s : State) (cfg : DatabaseCluster) :
    State × Go (Option Error) :=
  match openWriteDatabase b s cfg with
  | (s1, w, some err) => ({ s1 with _writeDatabase := w }, Go.ret (some err))
  | (s1, w, none) =>
    let s2 := { s1 with _writeDatabase := w }
    match openReadDatabases b s2 cfg with
    | Go.panic => (s2, Go.panic)
    | Go.ret (s3, rds, err) => ({ s3 with _readDatabases := rds }, Go.ret err)

/-- Source: `Init`. `var err error` is nil when the call starts; `_once.Do`
runs the closure only while the done flag is unset and sets the flag when the
closure ends (returning or panicking); a call that finds the flag set runs
nothing and returns the untouched nil `err`. -/
def Init (b : Backend) (s : State) (cfg : DatabaseCluster) : State × Go (Option Error) :=
  if s._once then (s, Go.ret none)
  else
    match InitBody b s cfg with
    | (s1, r) => ({ s1 with _once := true }, r)

/-- A run of `Init` calls made one after another, each with its own
configuration: the final state and what each call returned, in call order. -/
def InitSeq (b : Backend) : State → List DatabaseCluster → State × List (Go (Option Error))
  | s, [] => (s, [])
  | s, cfg :: rest =>
    match Init b s cfg with
    | (s1, r) =>
      match InitSeq b s1 rest with
      | (s2, rs) => (s2, r :: rs)

/-- The call `db.Close()` on a handle that is not nil. -/
def dbClose (b : Backend) (s : State) (db : DB) : State × Option Error :=
  ({ s with calls := s.calls ++ [Call.dbClose db] }, b.dbClose db)

/-- The `for _, r := range _readDatabases` loop of `Close`; `err` is the local
variable of `Close`. -/
def CloseLoop (b : Backend) : List (Option DB) → State → Option Error → State × Option Error
  | [], s, err => (s, err)
  | none :: rest, s, err => CloseLoop b rest s err
  | some r :: rest, s, err =>
    match dbClose b s r with
    | (s1, some err1) => CloseLoop b rest s1 (some err1)
    | (s1, none) => CloseLoop b rest s1 err

/-- Source: `Close`. -/
def Close (b : Backend) (s : State) : State × Option Error :=
  match s._writeDatabase with
  | none => CloseLoop b s._readDatabases s none
  | some w =>
    match dbClose b s w with
    | (s1, some err1) => CloseLoop b s1._readDatabases s1 (some err1)
    | (s1, none) => CloseLoop b s1._readDatabases s1 none

/-- Source: `selectDB`. The index is `helper.RandMax(len(databaseCluster))`;
indexing a slice outside `[0, len)` panics. The element itself may be a nil
handle. -/
def selectDB (b : Backend) (databaseCluster : List (Option DB)) : Go (Option DB) :=
  let i := b.RandMax (databaseCluster.length : Int)
  if 0 ≤ i then
    match databaseCluster[i.toNat]? with
    | some d => Go.ret d
    | none => Go.panic
  else Go.panic

/-- The call `log.Printf(format, ...)` with the message already formatted: the
message is handed to the log sink. -/
def logPrintf (s : State) (msg : String) : State :=
  { s with log := s.log ++ [msg] }

/-- How `%v` prints one argument. -/
def fmtArg : Arg → String
  | Arg.null => "<nil>"
  | Arg.int i => toString i
  | Arg.uint64 n => toString n
  | Arg.str t => t

/-- How `%v` prints the slice `args`: the elements separated by blanks, in
square brackets. -/
def fmtArgs (args : List Arg) : String :=
  "[" ++ " ".intercalate (args.map fmtArg) ++ "]"

/-- Source: `query`. A method call on a nil handle panics. -/
def query (b : Backend) (s : State) (q : String) (args : List Arg) :
    State × Go (Option Rows × Option Error) :=
  match selectDB b s._readDatabases with
  | Go.panic => (s, Go.panic)
  | Go.ret none => (s, Go.panic)
  | Go.ret (some db) =>
    let s1 := { s with calls := s.calls ++ [Call.dbQuery db q args] }
    match b.dbQuery db q args with
    | (_, some err) =>
      ((if b.AppDebug then logPrintf s1 ("query: " ++ q ++ "\n") else s1),
        Go.ret (none, some err))
    | (rows, none) => (s1, Go.ret (rows, none))

/-- Source: `queryRow`. -/
def queryRow (b : Backend) (s : State) (q : String) (args : List Arg) : State × Go Row :=
  match selectDB b s._readDatabases with
  | Go.panic => (s, Go.panic)
  | Go.ret none => (s, Go.panic)
  | Go.ret (some db) =>
    ({ s with calls := s.calls ++ [Call.dbQueryRow db q args] },
      Go.ret { db := db, query := q, args := args })

/-- Source: `prepare`. -/
def prepare (b : Backend) (s : State) (q : String) : State × Go (Option Stmt × Option Error) :=
  match s._writeDatabase with
  | none => (s, Go.panic)
  | some db =>
    let s1 := { s with calls := s.calls ++ [Call.dbPrepare db q] }
    match b.dbPrepare db q with
    | (_, some err) =>
      ((if b.AppDebug then logPrintf s1 ("prepare: " ++ q ++ "\n") else s1),
        Go.ret (none, some err))
    | (stmt, none) => (s1, Go.ret (stmt, none))

/-- Source: `txPrepare`, for a transaction that is not nil. -/
def txPrepare (b : Backend) (s : State) (tx : Tx) (q : String) :
    State × Go (Option Stmt × Option Error) :=
  let s1 := { s with calls := s.calls ++ [Call.txPrepare tx q] }
  match b.txPrepare tx q with
  | (_, some err) =>
    ((if b.AppDebug then logPrintf s1 ("txPrepare: " ++ q ++ "\n") else s1),
      Go.ret (none, some err))
  | (stmt, none) => (s1, Go.ret (stmt, none))

/-- Source: `stmtExec`, for a statement that is not nil. -/
def stmtExec (b : Backend) (s : State) (stmt : Stmt) (args : List Arg) :
    State × Go (Option Result × Option Error) :=
  let s1 := { s with calls := s.calls ++ [Call.stmtExec stmt args] }
  match b.stmtExec stmt args with
  | (_, some err) => (s1, Go.ret (none, some err))
  | (result, none) => (s1, Go.ret (result, none))

/-- Source: `exec`. -/
def exec (b : Backend) (s : State) (q : String) (args : List Arg) :
    State × Go (Option Result × Option Error) :=
  match s._writeDatabase with
  | none => (s, Go.panic)
  | some db =>
    let s1 := { s with calls := s.calls ++ [Call.dbExec db q args] }
    match b.dbExec db q args with
    | (_, some err) =>
      ((if b.AppDebug then
          logPrintf (logPrintf s1 ("exec: " ++ q ++ "\n")) ("args: " ++ fmtArgs args ++ "\n")
        else s1),
        Go.ret (none, some err))
    | (result, none) => (s1, Go.ret (result, none))

/-- Source: `begin`. -/
def begin (b : Backend) (s : State) : State × Go (Option Tx × Option Error) :=
  match s._writeDatabase with
  | none => (s, Go.panic)
  | some db => ({ s with calls := s.calls ++ [Call.dbBegin db] }, Go.ret (b.dbBegin db))

/-- Source: `txExec`, for a transaction that is not nil. -/
def txExec (b : Backend) (s : State) (tx : Tx) (q : String) (args : List Arg) :
    State × Go (Option Result × Option Error) :=
  let s1 := { s with calls := s.calls ++ [Call.txExec tx q args] }
  match b.txExec tx q args with
  | (_, some err) =>
    ((if b.AppDebug then
        logPrintf (logPrintf s1 ("txExec: " ++ q ++ "\n")) ("args: " ++ fmtArgs args ++ "\n")
      else s1),
      Go.ret (none, some err))
  | (result, none) => (s1, Go.ret (result, none))

/-- Source: `rollback`, for a transaction that is not nil. -/
def rollback (b : Backend) (s : State) (tx : Tx) : State × Option Error :=
  ({ s with calls := s.calls ++ [Call.txRollback tx] }, b.txRollback tx)

/-- Source: `commit`, for a transaction that is not nil. -/
def commit (b : Backend) (s : State) (tx : Tx) : State × Option Error :=
  ({ s with calls := s.calls ++ [Call.txCommit tx] }, b.txCommit tx)

/-- The text `sqlx` that `max` builds from the table and key names. -/
def maxSqlx (tableName key : String) : String :=
  "SELECT MAX(`" ++ key ++ "`) FROM `" ++ tableName ++ "` WHERE `" ++ key ++ "` % ? = ? "

/-- Source: `max`. `val` is a `*uint64` that `row.Scan(&val)` leaves nil for a
NULL aggregate; the shard arguments are bound in the order `appNum`, `appID`. -/
def max (b : Backend) (s : State) (tableName key : String) (appID appNum : Nat) :
    State × Go (Nat × Option Error) :=
  let sqlx := maxSqlx tableName key
  match queryRow b s sqlx [Arg.uint64 appNum, Arg.uint64 appID] with
  | (s1, Go.panic) => (s1, Go.panic)
  | (s1, Go.ret row) =>
    let s2 := { s1 with calls := s1.calls ++ [Call.rowScan row] }
    match b.rowScan row with
    | (_, some err) => (s2, Go.ret (0, some err))
    | (none, none) => (s2, Go.ret (0, none))
    | (some v, none) => (s2, Go.ret (v, none))

/-! Vocabulary of the statements -/

/-- The target string of an endpoint under the credential rule: the cluster
defaults when the endpoint lacks a username or a password, its own pair
otherwise. -/
def endpointDSN (cfg : DatabaseCluster) (r : Endpoint) : String :=
  if r.Username = "" ∨ r.Password = "" then
    dataSourceName cfg.Username cfg.Password r.Host r.Port cfg.Database cfg.Charset
  else
    dataSourceName r.Username r.Password r.Host r.Port cfg.Database cfg.Charset

/-- The `sql.Open` call that opens an endpoint. -/
def endpointOpen (cfg : DatabaseCluster) (r : Endpoint) : Call :=
  Call.sqlOpen cfg.Driver (endpointDSN cfg r)

/-- The handle that a successful open of endpoint `r` yields when it is call
number `n` of the run, after `SetMaxIdleConns(0)`. -/
def endpointHandle (cfg : DatabaseCluster) (n : Nat) (r : Endpoint) : DB :=
  { id := n, driverName := cfg.Driver, dataSourceName := endpointDSN cfg r, maxIdleConns := 0 }

/-- The handles that `Close` has to close: the writer when it is not nil, then
the reader handles that are not nil, in list order. -/
def closeTargets (s : State) : List DB :=
  s._writeDatabase.toList ++ s._readDatabases.reduceOption

/-- A backend in which every call succeeds with empty answers, the random
index is 0 and the debug flag is off. -/
def quietBackend : Backend :=
  { sqlOpen := fun _ _ => none
    dbClose := fun _ => none
    dbQuery := fun _ _ _ => (some { id := 0 }, none)
    rowScan := fun _ => (none, none)
    dbPrepare := fun _ _ => (some { id := 0 }, none)
    dbExec := fun _ _ _ => (some { lastInsertId := 0, rowsAffected := 0 }, none)
    dbBegin := fun _ => (some { id := 0 }, none)
    txPrepare := fun _ _ => (some { id := 0 }, none)
    txExec := fun _ _ _ => (some { lastInsertId := 0, rowsAffected := 0 }, none)
    txRollback := fun _ => none
    txCommit := fun _ => none
    stmtExec := fun _ _ => (some { lastInsertId := 0, rowsAffected := 0 }, none)
    RandMax := fun _ => 0
    AppDebug := false }

/-- A backend in which every call fails with the error `"down"` and the debug
flag is on. -/
def failingBackend : Backend :=
  { sqlOpen := fun _ _ => some "down"
    dbClose := fun _ => some "down"
    dbQuery := fun _ _ _ => (none, some "down")
    rowScan := fun _ => (none, some "down")
    dbPrepare := fun _ _ => (none, some "down")
    dbExec := fun _ _ _ => (none, some "down")
    dbBegin := fun _ => (none, some "down")
    txPrepare := fun _ _ => (none, some "down")
    txExec := fun _ _ _ => (none, some "down")
    txRollback := fun _ => some "down"
    txCommit := fun _ => some "down"
    stmtExec := fun _ _ => (none, some "down")
    RandMax := fun _ => 0
    AppDebug := true }

/-- A cluster with defaults `root`/`x` and two readers: one without
credentials of its own, one with `ro`/`y`. -/
def sampleCluster : DatabaseCluster :=
  { Driver := "mysql", Database := "article", Charset := "utf8mb4"
    Username := "root", Password := "x"
    Write := { Host := "w", Port := 3306, Username := "", Password := "" }
    Read := some [{ Host := "r1", Port := 3306, Username := "", Password := "" },
                  { Host := "r2", Port := 3307, Username := "ro", Password := "y" }] }

/-- The same cluster without any reader endpoint. -/
def readerlessCluster : DatabaseCluster :=
  { sampleCluster with Read := some [] }

/-- The row that `max` scans when `selectDB` picked the handle `db`. -/
def maxRow (db : DB) (tableName key : String) (appID appNum : Nat) : Row :=
  { db := db, query := maxSqlx tableName key, args := [Arg.uint64 appNum, Arg.uint64 appID] }

/-- A backend in which only the open of the second reader of `sampleCluster`
fails. -/
def secondReaderDown : Backend :=
  { quietBackend with
    sqlOpen := fun _ dsn =>
      if dsn = "ro:y@tcp(r2:3307)/article?charset=utf8mb4&parseTime=true" then some "refused"
      else none }

/-- A state with a writer handle and three reader handles. -/
def fourHandles : State :=
  { State.fresh with
    _writeDatabase := some (endpointHandle sampleCluster 0 sampleCluster.Write)
    _readDatabases :=
      [some (endpointHandle sampleCluster 1 sampleCluster.Write),
       some (endpointHandle sampleCluster 2 sampleCluster.Write),
       some (endpointHandle sampleCluster 3 sampleCluster.Write)]
    _once := true }

/-- A backend in which only the close of the handle with id 2 (the second
reader of `fourHandles`) fails. -/
def secondReaderCloseFails : Backend :=
  { quietBackend with dbClose := fun d => if d.id = 2 then some "close failed" else none }

/-- A backend whose aggregate scan yields the value 19. -/
def scanNineteen : Backend :=
  { quietBackend with rowScan := fun _ => (some 19, none) }


/-! Opening the endpoints -/

theorem sqlOpen_ok (b : Backend) (s : State) (d dsn : String) (h : b.sqlOpen d dsn = none) :
    sqlOpen b s d dsn =
      ({ s with calls := s.calls ++ [Call.sqlOpen d dsn] },
        some { id := s.calls.length, driverName := d, dataSourceName := dsn, maxIdleConns := 2 },
        none) := by
  simp [sqlOpen, h]

theorem sqlOpen_err (b : Backend) (s : State) (d dsn : String) (e : Error)
    (h : b.sqlOpen d dsn = some e) :
    sqlOpen b s d dsn = ({ s with calls := s.calls ++ [Call.sqlOpen d dsn] }, none, some e) := by
  simp [sqlOpen, h]

theorem endpointDSN_eq (cfg : DatabaseCluster) (r : Endpoint) :
    dataSourceName (if r.Username = "" ∨ r.Password = "" then cfg.Username else r.Username)
        (if r.Username = "" ∨ r.Password = "" then cfg.Password else r.Password)
        r.Host r.Port cfg.Database cfg.Charset = endpointDSN cfg r := by
  unfold endpointDSN
  split_ifs <;> rfl

theorem loop_cons_ok (b : Backend) (cfg : DatabaseCluster) (r : Endpoint) (rest : List Endpoint)
    (s : State) (acc : List (Option DB))
    (h : b.sqlOpen cfg.Driver (endpointDSN cfg r) = none) :
    openReadDatabasesLoop b cfg (r :: rest) s acc =
      openReadDatabasesLoop b cfg rest
        { s with calls := s.calls ++ [endpointOpen cfg r] }
        (acc ++ [some (endpointHandle cfg s.calls.length r)]) := by
  rw [openReadDatabasesLoop]
  simp only [endpointDSN_eq]
  rw [sqlOpen_ok b s _ _ h]
  rfl

theorem loop_cons_err (b : Backend) (cfg : DatabaseCluster) (r : Endpoint) (rest : List Endpoint)
    (s : State) (acc : List (Option DB)) (e : Error)
    (h : b.sqlOpen cfg.Driver (endpointDSN cfg r) = some e) :
    openReadDatabasesLoop b cfg (r :: rest) s acc =
      ({ s with calls := s.calls ++ [endpointOpen cfg r] }, [], some e) := by
  rw [openReadDatabasesLoop]
  simp only [endpointDSN_eq]
  rw [sqlOpen_err b s _ _ e h]
  rfl

/-- When every endpoint opens, the loop opens them all, in order, and appends
one handle per endpoint. -/
theorem loop_all_ok (b : Backend) (cfg : DatabaseCluster) :
    ∀ (rs : List Endpoint) (s : State) (acc : List (Option DB)),
      (∀ x ∈ rs, b.sqlOpen cfg.Driver (endpointDSN cfg x) = none) →
      openReadDatabasesLoop b cfg rs s acc =
        ({ s with calls := s.calls ++ rs.map (endpointOpen cfg) },
          acc ++ (rs.enumFrom s.calls.length).map (fun p => some (endpointHandle cfg p.1 p.2)),
          none)
  | [], s, acc, _ => by simp [openReadDatabasesLoop]
  | r :: rest, s, acc, h => by
    have hr : b.sqlOpen cfg.Driver (endpointDSN cfg r) = none := h r (List.mem_cons_self _ _)
    have hrest : ∀ x ∈ rest, b.sqlOpen cfg.Driver (endpointDSN cfg x) = none :=
      fun x hx => h x (List.mem_cons_of_mem _ hx)
    rw [loop_cons_ok b cfg r rest s acc hr, loop_all_ok b cfg rest _ _ hrest]
    simp [List.enumFrom]

/-- When the endpoints before `r` open and `r` does not, the loop stops at `r`
and returns no list. -/
theorem loop_first_err (b : Backend) (cfg : DatabaseCluster) (r : Endpoint)
    (post : List Endpoint) (e : Error)
    (hr : b.sqlOpen cfg.Driver (endpointDSN cfg r) = some e) :
    ∀ (pre : List Endpoint) (s : State) (acc : List (Option DB)),
      (∀ x ∈ pre, b.sqlOpen cfg.Driver (endpointDSN cfg x) = none) →
      openReadDatabasesLoop b cfg (pre ++ r :: post) s acc =
        ({ s with calls := s.calls ++ (pre ++ [r]).map (endpointOpen cfg) }, [], some e)
  | [], s, acc, _ => by
    simpa using loop_cons_err b cfg r post s acc e hr
  | p :: pre, s, acc, h => by
    have hp : b.sqlOpen cfg.Driver (endpointDSN cfg p) = none := h p (List.mem_cons_self _ _)
    have hpre : ∀ x ∈ pre, b.sqlOpen cfg.Driver (endpointDSN cfg x) = none :=
      fun x hx => h x (List.mem_cons_of_mem _ hx)
    rw [List.cons_append, loop_cons_ok b cfg p _ s acc hp,
      loop_first_err b cfg r post e hr pre _ _ hpre]
    simp

/-- Either every endpoint of a list opens, or there is a first one that does
not. -/
theorem all_ok_or_first_err (b : Backend) (cfg : DatabaseCluster) :
    ∀ rs : List Endpoint,
      (∀ x ∈ rs, b.sqlOpen cfg.Driver (endpointDSN cfg x) = none) ∨
      ∃ pre r post e, rs = pre ++ r :: post ∧
        (∀ x ∈ pre, b.sqlOpen cfg.Driver (endpointDSN cfg x) = none) ∧
        b.sqlOpen cfg.Driver (endpointDSN cfg r) = some e
  | [] => Or.inl (by simp)
  | r :: rest => by
    cases hr : b.sqlOpen cfg.Driver (endpointDSN cfg r) with
    | some e => exact Or.inr ⟨[], r, rest, e, rfl, by simp, hr⟩
    | none =>
      rcases all_ok_or_first_err b cfg rest with h | ⟨pre, x, post, e, hrs, hpre, hx⟩
      · left
        intro y hy
        rcases List.mem_cons.mp hy with rfl | hy
        · exact hr
        · exact h y hy
      · right
        refine ⟨r :: pre, x, post, e, by simp [hrs], ?_, hx⟩
        intro y hy
        rcases List.mem_cons.mp hy with rfl | hy
        · exact hr
        · exact hpre y hy

/-- The loop only adds `sql.Open` calls, one per endpoint of an initial
segment of the list, and the segment is the whole list when it returns no
error. -/
theorem loop_state (b : Backend) (cfg : DatabaseCluster) (rs : List Endpoint) (s : State)
    (acc : List (Option DB)) :
    ∃ k, k ≤ rs.length ∧
      (openReadDatabasesLoop b cfg rs s acc).1 =
        { s with calls := s.calls ++ (rs.take k).map (endpointOpen cfg) } ∧
      ((openReadDatabasesLoop b cfg rs s acc).2.2 = none → k = rs.length) := by
  rcases all_ok_or_first_err b cfg rs with h | ⟨pre, r, post, e, hrs, hpre, hr⟩
  · refine ⟨rs.length, le_refl _, ?_, fun _ => rfl⟩
    rw [loop_all_ok b cfg rs s acc h]
    simp
  · subst hrs
    refine ⟨pre.length + 1, by simp, ?_, ?_⟩
    · rw [loop_first_err b cfg r post e hr pre s acc hpre]
      simp [List.take_append_eq_append_take]
    · rw [loop_first_err b cfg r post e hr pre s acc hpre]
      simp

theorem openWriteDatabase_ok (b : Backend) (s : State) (cfg : DatabaseCluster)
    (h : b.sqlOpen cfg.Driver (endpointDSN cfg cfg.Write) = none) :
    openWriteDatabase b s cfg =
      ({ s with calls := s.calls ++ [endpointOpen cfg cfg.Write] },
        some (endpointHandle cfg s.calls.length cfg.Write), none) := by
  unfold openWriteDatabase
  simp only [endpointDSN_eq]
  rw [sqlOpen_ok b s _ _ h]
  rfl

theorem openWriteDatabase_err (b : Backend) (s : State) (cfg : DatabaseCluster) (e : Error)
    (h : b.sqlOpen cfg.Driver (endpointDSN cfg cfg.Write) = some e) :
    openWriteDatabase b s cfg =
      ({ s with calls := s.calls ++ [endpointOpen cfg cfg.Write] }, none, some e) := by
  unfold openWriteDatabase
  simp only [endpointDSN_eq]
  rw [sqlOpen_err b s _ _ e h]
  rfl

/-! `Init` -/

theorem Init_done (b : Backend) (s : State) (cfg : DatabaseCluster) (h : s._once = true) :
    Init b s cfg = (s, Go.ret none) := by
  simp [Init, h]

theorem Init_first (b : Backend) (s : State) (cfg : DatabaseCluster) (h : s._once = false) :
    Init b s cfg = ({ (InitBody b s cfg).1 with _once := true }, (InitBody b s cfg).2) := by
  simp [Init, h]

theorem Init_sets_once (b : Backend) (s : State) (cfg : DatabaseCluster) :
    (Init b s cfg).1._once = true := by
  cases h : s._once with
  | true => rw [Init_done b s cfg h]; exact h
  | false => rw [Init_first b s cfg h]

theorem InitSeq_done (b : Backend) :
    ∀ (cfgs : List DatabaseCluster) (s : State), s._once = true →
      InitSeq b s cfgs = (s, List.replicate cfgs.length (Go.ret none))
  | [], s, _ => by simp [InitSeq]
  | cfg :: rest, s, h => by
    rw [InitSeq, Init_done b s cfg h]
    simp only
    rw [InitSeq_done b rest s h]
    simp [List.replicate_succ]

theorem InitSeq_cons (b : Backend) (s : State) (cfg : DatabaseCluster)
    (rest : List DatabaseCluster) :
    InitSeq b s (cfg :: rest) =
      ((Init b s cfg).1, (Init b s cfg).2 :: List.replicate rest.length (Go.ret none)) := by
  rw [InitSeq]
  simp only
  rw [InitSeq_done b rest _ (Init_sets_once b s cfg)]

/-- The body of the first call when the writer does not open. -/
theorem InitBody_writer_err (b : Backend) (s : State) (cfg : DatabaseCluster) (e : Error)
    (h : b.sqlOpen cfg.Driver (endpointDSN cfg cfg.Write) = some e) :
    InitBody b s cfg =
      ({ s with calls := s.calls ++ [endpointOpen cfg cfg.Write], _writeDatabase := none },
        Go.ret (some e)) := by
  unfold InitBody
  rw [openWriteDatabase_err b s cfg e h]

/-- The body of the first call when the writer opens and `cfg.Read` is nil. -/
theorem InitBody_read_nil (b : Backend) (s : State) (cfg : DatabaseCluster)
    (h : b.sqlOpen cfg.Driver (endpointDSN cfg cfg.Write) = none) (hr : cfg.Read = none) :
    InitBody b s cfg =
      ({ s with calls := s.calls ++ [endpointOpen cfg cfg.Write],
                _writeDatabase := some (endpointHandle cfg s.calls.length cfg.Write) },
        Go.panic) := by
  unfold InitBody
  rw [openWriteDatabase_ok b s cfg h]
  simp [openReadDatabases, hr]

/-- The body of the first call when the writer opens: the reader loop runs on
the state that holds the writer handle. -/
theorem InitBody_read (b : Backend) (s : State) (cfg : DatabaseCluster) (rs : List Endpoint)
    (h : b.sqlOpen cfg.Driver (endpointDSN cfg cfg.Write) = none) (hr : cfg.Read = some rs) :
    InitBody b s cfg =
      ({ (openReadDatabasesLoop b cfg rs
            { s with calls := s.calls ++ [endpointOpen cfg cfg.Write],
                     _writeDatabase := some (endpointHandle cfg s.calls.length cfg.Write) }
            []).1 with
          _readDatabases :=
            (openReadDatabasesLoop b cfg rs
              { s with calls := s.calls ++ [endpointOpen cfg cfg.Write],
                       _writeDatabase := some (endpointHandle cfg s.calls.length cfg.Write) }
              []).2.1 },
        Go.ret (openReadDatabasesLoop b cfg rs
            { s with calls := s.calls ++ [endpointOpen cfg cfg.Write],
                     _writeDatabase := some (endpointHandle cfg s.calls.length cfg.Write) }
            []).2.2) := by
  unfold InitBody
  rw [openWriteDatabase_ok b s cfg h]
  simp [openReadDatabases, hr]

/-- The calls of the body: the writer, then an initial segment of the readers. -/
theorem InitBody_calls (b : Backend) (s : State) (cfg : DatabaseCluster) :
    ∃ k, k ≤ (cfg.Read.getD []).length ∧
      (InitBody b s cfg).1.calls =
        s.calls ++ endpointOpen cfg cfg.Write ::
          ((cfg.Read.getD []).take k).map (endpointOpen cfg) := by
  cases hw : b.sqlOpen cfg.Driver (endpointDSN cfg cfg.Write) with
  | some e => exact ⟨0, Nat.zero_le _, by rw [InitBody_writer_err b s cfg e hw]; simp⟩
  | none =>
    cases hr : cfg.Read with
    | none => exact ⟨0, Nat.zero_le _, by rw [InitBody_read_nil b s cfg hw hr]; simp⟩
    | some rs =>
      obtain ⟨k, hk, hs, _⟩ := loop_state b cfg rs
        { s with calls := s.calls ++ [endpointOpen cfg cfg.Write],
                 _writeDatabase := some (endpointHandle cfg s.calls.length cfg.Write) } []
      refine ⟨k, by simpa using hk, ?_⟩
      rw [InitBody_read b s cfg rs hw hr, hs]
      simp

/-! Claims about `Init` -/

/-- C1, as stated, fails: with a backend in which every open fails, the first
of two `Init` calls returns the open error and the second returns nil, which
is not the outcome of the first. -/
theorem Init_second_call_forgets_error :
    (InitSeq failingBackend State.fresh [sampleCluster, sampleCluster]).2 =
        [Go.ret (some "down"), Go.ret none] ∧
      (Init failingBackend (Init failingBackend State.fresh sampleCluster).1 sampleCluster).2 ≠
        (Init failingBackend State.fresh sampleCluster).2 := by
  decide

/-- C1, amended: in every run of `Init` calls made one after another, from any
state and with any configurations, every call after the first returns nil,
whatever the first call returned. -/
theorem Init_later_calls_return_nil (b : Backend) (s : State) (cfg : DatabaseCluster)
    (rest : List DatabaseCluster) :
    (InitSeq b s (cfg :: rest)).2 =
      (Init b s cfg).2 :: List.replicate rest.length (Go.ret none) := by
  rw [InitSeq_cons]

/-- C2: the calls after the first leave the whole state (the writer handle,
the reader handle list, the calls made, the log) as the first call left it,
and the calls made by a run that starts on a fresh package are the open of the
writer followed by one open for each endpoint of an initial segment of the
reader list, so no endpoint is opened twice. -/
theorem Init_only_first_call_works (b : Backend) (s : State) (cfg : DatabaseCluster)
    (rest : List DatabaseCluster) :
    (InitSeq b s (cfg :: rest)).1 = (Init b s cfg).1 ∧
      ∃ k, k ≤ (cfg.Read.getD []).length ∧
        (InitSeq b State.fresh (cfg :: rest)).1.calls =
          endpointOpen cfg cfg.Write :: ((cfg.Read.getD []).take k).map (endpointOpen cfg) := by
  refine ⟨by rw [InitSeq_cons], ?_⟩
  obtain ⟨k, hk, hc⟩ := InitBody_calls b State.fresh cfg
  refine ⟨k, hk, ?_⟩
  rw [InitSeq_cons, Init_first b State.fresh cfg rfl]
  simpa [State.fresh] using hc

/-- C8, as stated, fails: for a configuration without reader endpoints `Init`
returns no error and leaves the reader handle list empty, and the next `query`
panics in `selectDB`. -/
theorem Init_accepts_no_readers :
    (Init quietBackend State.fresh readerlessCluster).2 = Go.ret none ∧
      (Init quietBackend State.fresh readerlessCluster).1._readDatabases = [] ∧
      (query quietBackend (Init quietBackend State.fresh readerlessCluster).1
        "SELECT 1" []).2 = Go.panic := by
  decide

/-- C8, amended: after a first `Init` call that returns no error the reader
handle list holds one handle, not nil, for each configured reader endpoint, in
order; it is empty exactly when the configuration has no reader endpoint. -/
theorem Init_readers_match_config (b : Backend) (s : State) (cfg : DatabaseCluster)
    (hfirst : s._once = false) (hret : (Init b s cfg).2 = Go.ret none) :
    ∃ rs, cfg.Read = some rs ∧
      (Init b s cfg).1._readDatabases =
        (rs.enumFrom (s.calls.length + 1)).map (fun p => some (endpointHandle cfg p.1 p.2)) ∧
      ((Init b s cfg).1._readDatabases.length = rs.length) ∧
      ((Init b s cfg).1._readDatabases = [] ↔ rs = []) := by
  rw [Init_first b s cfg hfirst] at hret ⊢
  simp only at hret ⊢
  cases hw : b.sqlOpen cfg.Driver (endpointDSN cfg cfg.Write) with
  | some e => rw [InitBody_writer_err b s cfg e hw] at hret; simp at hret
  | none =>
    cases hr : cfg.Read with
    | none => rw [InitBody_read_nil b s cfg hw hr] at hret; simp at hret
    | some rs =>
      rw [InitBody_read b s cfg rs hw hr] at hret ⊢
      rcases all_ok_or_first_err b cfg rs with h | ⟨pre, r, post, e, hrs, hpre, hx⟩
      · refine ⟨rs, rfl, ?_⟩
        rw [loop_all_ok b cfg rs _ [] h]
        simp
      · subst hrs
        rw [loop_first_err b cfg r post e hx pre _ [] hpre] at hret
        simp at hret

theorem Init_readers_match_config_witness :
    State.fresh._once = false ∧
      (Init quietBackend State.fresh sampleCluster).2 = Go.ret none ∧
      ∃ rs, sampleCluster.Read = some rs ∧
        (Init quietBackend State.fresh sampleCluster).1._readDatabases =
          (rs.enumFrom (State.fresh.calls.length + 1)).map
            (fun p => some (endpointHandle sampleCluster p.1 p.2)) ∧
        ((Init quietBackend State.fresh sampleCluster).1._readDatabases.length = rs.length) ∧
        ((Init quietBackend State.fresh sampleCluster).1._readDatabases = [] ↔ rs = []) :=
  ⟨rfl, by decide,
    Init_readers_match_config quietBackend State.fresh sampleCluster rfl (by decide)⟩

/-- C10: the reader set is all or nothing. For a configuration with reader
list `rs`: when the readers before `r` open and `r` fails with `e`,
`openReadDatabases` returns `e` with no list, has opened exactly the readers up
to `r`, and a first `Init` call whose writer opened returns `e` and leaves the
reader handle list empty; when every reader opens, `openReadDatabases` returns
one handle per reader endpoint, in configuration order, and that first `Init`
call stores this list. -/
theorem readers_all_or_nothing (b : Backend) (s : State) (cfg : DatabaseCluster)
    (rs : List Endpoint) (hread : cfg.Read = some rs) :
    (∀ pre r post e, rs = pre ++ r :: post →
        (∀ x ∈ pre, b.sqlOpen cfg.Driver (endpointDSN cfg x) = none) →
        b.sqlOpen cfg.Driver (endpointDSN cfg r) = some e →
        openReadDatabases b s cfg =
            Go.ret ({ s with calls := s.calls ++ (pre ++ [r]).map (endpointOpen cfg) },
              [], some e) ∧
          (s._once = false → b.sqlOpen cfg.Driver (endpointDSN cfg cfg.Write) = none →
            (Init b s cfg).2 = Go.ret (some e) ∧
            (Init b s cfg).1._readDatabases = [] ∧
            (Init b s cfg).1.calls =
              s.calls ++ (cfg.Write :: (pre ++ [r])).map (endpointOpen cfg))) ∧
      ((∀ x ∈ rs, b.sqlOpen cfg.Driver (endpointDSN cfg x) = none) →
        openReadDatabases b s cfg =
            Go.ret ({ s with calls := s.calls ++ rs.map (endpointOpen cfg) },
              (rs.enumFrom s.calls.length).map (fun p => some (endpointHandle cfg p.1 p.2)),
              none) ∧
          (s._once = false → b.sqlOpen cfg.Driver (endpointDSN cfg cfg.Write) = none →
            (Init b s cfg).2 = Go.ret none ∧
            (Init b s cfg).1._readDatabases =
              (rs.enumFrom (s.calls.length + 1)).map
                (fun p => some (endpointHandle cfg p.1 p.2)) ∧
            (Init b s cfg).1._readDatabases.length = rs.length ∧
            (Init b s cfg).1.calls =
              s.calls ++ (cfg.Write :: rs).map (endpointOpen cfg))) := by
  constructor
  · intro pre r post e hrs hpre hr
    subst hrs
    constructor
    · simp only [openReadDatabases, hread]
      rw [loop_first_err b cfg r post e hr pre s [] hpre]
    · intro hfirst hw
      rw [Init_first b s cfg hfirst, InitBody_read b s cfg _ hw hread,
        loop_first_err b cfg r post e hr pre _ [] hpre]
      simp
  · intro hall
    constructor
    · simp only [openReadDatabases, hread]
      rw [loop_all_ok b cfg rs s [] hall]
      simp
    · intro hfirst hw
      rw [Init_first b s cfg hfirst, InitBody_read b s cfg _ hw hread,
        loop_all_ok b cfg rs _ [] hall]
      simp

/-- C3: credential resolution. The one `sql.Open` call of `openWriteDatabase`,
and the call that `openReadDatabases` makes for each reader endpoint it
reaches (all of them when it returns no error), carries a target string built
from the cluster username and password when the username or the password of
the endpoint is empty, and from the username and password of the endpoint
otherwise. For defaults `root`/`x`, the reader without credentials is opened
as `root` and the reader `ro`/`y` as `ro`. -/
theorem credential_resolution (b : Backend) (s : State) (cfg : DatabaseCluster)
    (rs : List Endpoint) (hread : cfg.Read = some rs) :
    (openWriteDatabase b s cfg).1.calls =
        s.calls ++ [Call.sqlOpen cfg.Driver
          (if cfg.Write.Username = "" ∨ cfg.Write.Password = "" then
            dataSourceName cfg.Username cfg.Password cfg.Write.Host cfg.Write.Port
              cfg.Database cfg.Charset
          else
            dataSourceName cfg.Write.Username cfg.Write.Password cfg.Write.Host cfg.Write.Port
              cfg.Database cfg.Charset)] ∧
      (∃ s1 l err k, openReadDatabases b s cfg = Go.ret (s1, l, err) ∧ k ≤ rs.length ∧
        (err = none → k = rs.length) ∧
        s1.calls = s.calls ++ (rs.take k).map (fun r =>
          Call.sqlOpen cfg.Driver
            (if r.Username = "" ∨ r.Password = "" then
              dataSourceName cfg.Username cfg.Password r.Host r.Port cfg.Database cfg.Charset
            else
              dataSourceName r.Username r.Password r.Host r.Port cfg.Database cfg.Charset))) ∧
      (Init quietBackend State.fresh sampleCluster).1.calls =
        [Call.sqlOpen "mysql" "root:x@tcp(w:3306)/article?charset=utf8mb4&parseTime=true",
         Call.sqlOpen "mysql" "root:x@tcp(r1:3306)/article?charset=utf8mb4&parseTime=true",
         Call.sqlOpen "mysql" "ro:y@tcp(r2:3307)/article?charset=utf8mb4&parseTime=true"] := by
  refine ⟨?_, ?_, by decide⟩
  · cases hw : b.sqlOpen cfg.Driver (endpointDSN cfg cfg.Write) with
    | some e => rw [openWriteDatabase_err b s cfg e hw]; rfl
    | none => rw [openWriteDatabase_ok b s cfg hw]; rfl
  · obtain ⟨k, hk, hs, hnone⟩ := loop_state b cfg rs s []
    refine ⟨_, _, _, k, by simp only [openReadDatabases, hread]; rfl, hk, hnone, ?_⟩
    rw [hs]
    rfl

theorem credential_resolution_witness :
    sampleCluster.Read = some
        [{ Host := "r1", Port := 3306, Username := "", Password := "" },
         { Host := "r2", Port := 3307, Username := "ro", Password := "y" }] ∧
      (openWriteDatabase quietBackend State.fresh sampleCluster).1.calls =
        [Call.sqlOpen "mysql" "root:x@tcp(w:3306)/article?charset=utf8mb4&parseTime=true"] :=
  ⟨rfl, by
    have h := (credential_resolution quietBackend State.fresh sampleCluster _ rfl).1
    rw [h]
    decide⟩

/-! `Close` -/

theorem getLast?_append_cons_eq {α : Type} (l t : List α) (a : α) :
    (l ++ a :: t).getLast? = (a :: t).getLast? := by
  induction l with
  | nil => rfl
  | cons x l ih =>
    cases l with
    | nil => simp [List.getLast?]
    | cons y l => simp [List.getLast?] at ih ⊢

/-- The reader loop of `Close` closes every handle that is not nil, in list
order, and keeps the error of the last close that failed, or the incoming
`err` when none failed. -/
theorem CloseLoop_spec (b : Backend) :
    ∀ (l : List (Option DB)) (s : State) (err : Option Error),
      CloseLoop b l s err =
        ({ s with calls := s.calls ++ l.reduceOption.map Call.dbClose },
          (err.toList ++ l.reduceOption.filterMap b.dbClose).getLast?)
  | [], s, err => by cases err <;> simp [CloseLoop]
  | none :: rest, s, err => by
    rw [CloseLoop, CloseLoop_spec b rest s err]
    simp
  | some r :: rest, s, err => by
    rw [CloseLoop]
    simp only [dbClose]
    cases hr : b.dbClose r with
    | some e =>
      simp only
      rw [CloseLoop_spec b rest _ (some e)]
      simp only [List.reduceOption_cons_of_some, List.filterMap_cons, hr]
      rw [getLast?_append_cons_eq]
      cases rest.reduceOption.filterMap b.dbClose <;> simp
    | none =>
      simp only
      rw [CloseLoop_spec b rest _ err]
      simp [List.reduceOption_cons_of_some, List.filterMap_cons, hr]

/-- C4: `Close` calls `Close` on the writer handle when it is not nil and then
on every reader handle that is not nil, once each and in that order, whatever
the closes return; it returns the error of the last close that failed, and
nil exactly when no close failed. With a writer and three readers of which
only the second reader fails to close, all four handles are closed and that
failure is returned. -/
theorem Close_closes_all (b : Backend) (s : State) :
    (Close b s).1.calls = s.calls ++ (closeTargets s).map Call.dbClose ∧
      (Close b s).2 = ((closeTargets s).filterMap b.dbClose).getLast? ∧
      ((Close b s).2 = none ↔ ∀ d ∈ closeTargets s, b.dbClose d = none) ∧
      ((Close secondReaderCloseFails fourHandles).2 = some "close failed" ∧
        (Close secondReaderCloseFails fourHandles).1.calls =
          [Call.dbClose (endpointHandle sampleCluster 0 sampleCluster.Write),
           Call.dbClose (endpointHandle sampleCluster 1 sampleCluster.Write),
           Call.dbClose (endpointHandle sampleCluster 2 sampleCluster.Write),
           Call.dbClose (endpointHandle sampleCluster 3 sampleCluster.Write)]) := by
  have key : Close b s =
      ({ s with calls := s.calls ++ (closeTargets s).map Call.dbClose },
        ((closeTargets s).filterMap b.dbClose).getLast?) := by
    unfold Close closeTargets
    cases hw : s._writeDatabase with
    | none =>
      simp only
      rw [CloseLoop_spec]
      simp [hw]
    | some w =>
      simp only [dbClose]
      cases hc : b.dbClose w with
      | some e =>
        simp only
        rw [CloseLoop_spec]
        simp [List.filterMap_cons, hc, hw]
      | none =>
        simp only
        rw [CloseLoop_spec]
        simp [List.filterMap_cons, hc, hw]
  rw [key]
  refine ⟨rfl, rfl, ?_, by decide⟩
  simp only
  rw [List.getLast?_eq_none_iff, List.filterMap_eq_nil_iff]

/-! `selectDB` and the executors -/

/-- C9: when the draw `helper.RandMax(len)` is an `r` with `0 <= r < len`,
`selectDB` does not panic and returns the element at index `r`, which is a
member of the list; the list is then not empty. -/
theorem selectDB_in_range (b : Backend) (l : List (Option DB)) (r : Int)
    (hdraw : b.RandMax (l.length : Int) = r) (h0 : 0 ≤ r) (hlt : r < (l.length : Int)) :
    ∃ h : r.toNat < l.length,
      selectDB b l = Go.ret (l.get ⟨r.toNat, h⟩) ∧ l.get ⟨r.toNat, h⟩ ∈ l ∧ l ≠ [] := by
  have h : r.toNat < l.length := by omega
  refine ⟨h, ?_, List.get_mem _ _ _, ?_⟩
  · unfold selectDB
    simp only [hdraw, h0, if_true]
    rw [List.getElem?_eq_getElem h]
    rfl
  · intro hl
    simp [hl] at h

theorem selectDB_in_range_witness :
    quietBackend.RandMax ((fourHandles._readDatabases.length : Nat) : Int) = 0 ∧
      (0 : Int) ≤ 0 ∧ (0 : Int) < (fourHandles._readDatabases.length : Int) ∧
      ∃ h : (0 : Int).toNat < fourHandles._readDatabases.length,
        selectDB quietBackend fourHandles._readDatabases =
            Go.ret (fourHandles._readDatabases.get ⟨(0 : Int).toNat, h⟩) ∧
          fourHandles._readDatabases.get ⟨(0 : Int).toNat, h⟩ ∈ fourHandles._readDatabases ∧
          fourHandles._readDatabases ≠ [] :=
  ⟨rfl, le_refl _, by decide,
    selectDB_in_range quietBackend fourHandles._readDatabases 0 rfl (le_refl _) (by decide)⟩

/-- C5: once a reader handle `db` is selected, `max` returns: `(0, err)` with
the error of the scan when the scan fails, `(0, nil)` when the scan succeeds
and leaves the value absent, `(v, nil)` when the scan succeeds with `v`. It
makes the two calls `QueryRow` and `Scan` and nothing else. -/
theorem max_outcomes (b : Backend) (s : State) (tableName key : String) (appID appNum : Nat)
    (db : DB) (hsel : selectDB b s._readDatabases = Go.ret (some db)) :
    (∀ v e, b.rowScan (maxRow db tableName key appID appNum) = (v, some e) →
        (max b s tableName key appID appNum).2 = Go.ret (0, some e)) ∧
      (b.rowScan (maxRow db tableName key appID appNum) = (none, none) →
        (max b s tableName key appID appNum).2 = Go.ret (0, none)) ∧
      (∀ v, b.rowScan (maxRow db tableName key appID appNum) = (some v, none) →
        (max b s tableName key appID appNum).2 = Go.ret (v, none)) ∧
      (max b s tableName key appID appNum).1.calls =
        s.calls ++ [Call.dbQueryRow db (maxSqlx tableName key)
            [Arg.uint64 appNum, Arg.uint64 appID],
          Call.rowScan (maxRow db tableName key appID appNum)] := by
  have hq : queryRow b s (maxSqlx tableName key) [Arg.uint64 appNum, Arg.uint64 appID] =
      ({ s with calls := s.calls ++ [Call.dbQueryRow db (maxSqlx tableName key)
            [Arg.uint64 appNum, Arg.uint64 appID]] },
        Go.ret (maxRow db tableName key appID appNum)) := by
    simp [queryRow, hsel, maxRow]
  refine ⟨?_, ?_, ?_, ?_⟩
  · intro v e h
    simp [max, hq, h]
  · intro h
    simp [max, hq, h]
  · intro v h
    simp [max, hq, h]
  · rcases hscan : b.rowScan (maxRow db tableName key appID appNum) with ⟨v, e⟩
    cases e with
    | some e => simp [max, hq, hscan]
    | none =>
      cases v with
      | none => simp [max, hq, hscan]
      | some v => simp [max, hq, hscan]

theorem max_outcomes_witness :
    selectDB scanNineteen fourHandles._readDatabases =
        Go.ret (some (endpointHandle sampleCluster 1 sampleCluster.Write)) ∧
      scanNineteen.rowScan
          (maxRow (endpointHandle sampleCluster 1 sampleCluster.Write) "article" "id" 5 7) =
        (some 19, none) ∧
      (max scanNineteen fourHandles "article" "id" 5 7).2 = Go.ret (19, none) :=
  ⟨by decide, rfl,
    (max_outcomes scanNineteen fourHandles "article" "id" 5 7
      (endpointHandle sampleCluster 1 sampleCluster.Write) (by decide)).2.2.1 19 rfl⟩

/-- C6: with a reader handle `db` selected and a writer handle `w` in place,
each of `query`, `prepare`, `txPrepare`, `exec` and `txExec` makes exactly one
call on its handle, whatever the debug flag; when that call fails with `e` the
executor returns a nil result with `e` itself, and when it succeeds the
executor returns the result of the handle with a nil error. -/
theorem executors_propagate (b : Backend) (s : State) (q : String) (args : List Arg) (tx : Tx)
    (db w : DB) (hsel : selectDB b s._readDatabases = Go.ret (some db))
    (hw : s._writeDatabase = some w) :
    ((query b s q args).1.calls = s.calls ++ [Call.dbQuery db q args] ∧
        (∀ rows e, b.dbQuery db q args = (rows, some e) →
          (query b s q args).2 = Go.ret (none, some e)) ∧
        (∀ rows, b.dbQuery db q args = (rows, none) →
          (query b s q args).2 = Go.ret (rows, none))) ∧
      ((prepare b s q).1.calls = s.calls ++ [Call.dbPrepare w q] ∧
        (∀ stmt e, b.dbPrepare w q = (stmt, some e) →
          (prepare b s q).2 = Go.ret (none, some e)) ∧
        (∀ stmt, b.dbPrepare w q = (stmt, none) →
          (prepare b s q).2 = Go.ret (stmt, none))) ∧
      ((txPrepare b s tx q).1.calls = s.calls ++ [Call.txPrepare tx q] ∧
        (∀ stmt e, b.txPrepare tx q = (stmt, some e) →
          (txPrepare b s tx q).2 = Go.ret (none, some e)) ∧
        (∀ stmt, b.txPrepare tx q = (stmt, none) →
          (txPrepare b s tx q).2 = Go.ret (stmt, none))) ∧
      ((exec b s q args).1.calls = s.calls ++ [Call.dbExec w q args] ∧
        (∀ res e, b.dbExec w q args = (res, some e) →
          (exec b s q args).2 = Go.ret (none, some e)) ∧
        (∀ res, b.dbExec w q args = (res, none) →
          (exec b s q args).2 = Go.ret (res, none))) ∧
      ((txExec b s tx q args).1.calls = s.calls ++ [Call.txExec tx q args] ∧
        (∀ res e, b.txExec tx q args = (res, some e) →
          (txExec b s tx q args).2 = Go.ret (none, some e)) ∧
        (∀ res, b.txExec tx q args = (res, none) →
          (txExec b s tx q args).2 = Go.ret (res, none))) := by
  refine ⟨⟨?_, ?_, ?_⟩, ⟨?_, ?_, ?_⟩, ⟨?_, ?_, ?_⟩, ⟨?_, ?_, ?_⟩, ⟨?_, ?_, ?_⟩⟩
  · rcases h : b.dbQuery db q args with ⟨rows, e⟩
    cases e <;> cases hd : b.AppDebug <;> simp [query, hsel, h, hd, logPrintf]
  · intro rows e h
    simp [query, hsel, h]
  · intro rows h
    simp [query, hsel, h]
  · rcases h : b.dbPrepare w q with ⟨stmt, e⟩
    cases e <;> cases hd : b.AppDebug <;> simp [prepare, hw, h, hd, logPrintf]
  · intro stmt e h
    simp [prepare, hw, h]
  · intro stmt h
    simp [prepare, hw, h]
  · rcases h : b.txPrepare tx q with ⟨stmt, e⟩
    cases e <;> cases hd : b.AppDebug <;> simp [txPrepare, h, hd, logPrintf]
  · intro stmt e h
    simp [txPrepare, h]
  · intro stmt h
    simp [txPrepare, h]
  · rcases h : b.dbExec w q args with ⟨res, e⟩
    cases e <;> cases hd : b.AppDebug <;> simp [exec, hw, h, hd, logPrintf]
  · intro res e h
    simp [exec, hw, h]
  · intro res h
    simp [exec, hw, h]
  · rcases h : b.txExec tx q args with ⟨res, e⟩
    cases e <;> cases hd : b.AppDebug <;> simp [txExec, h, hd, logPrintf]
  · intro res e h
    simp [txExec, h]
  · intro res h
    simp [txExec, h]

theorem executors_propagate_witness :
    selectDB failingBackend fourHandles._readDatabases =
        Go.ret (some (endpointHandle sampleCluster 1 sampleCluster.Write)) ∧
      fourHandles._writeDatabase = some (endpointHandle sampleCluster 0 sampleCluster.Write) ∧
      (exec failingBackend fourHandles "DELETE FROM t WHERE id = ?" [Arg.int 4]).2 =
        Go.ret (none, some "down") ∧
      (exec failingBackend fourHandles "DELETE FROM t WHERE id = ?" [Arg.int 4]).1.calls =
        fourHandles.calls ++ [Call.dbExec (endpointHandle sampleCluster 0 sampleCluster.Write)
          "DELETE FROM t WHERE id = ?" [Arg.int 4]] :=
  ⟨by decide, rfl,
    (executors_propagate failingBackend fourHandles "DELETE FROM t WHERE id = ?" [Arg.int 4]
      { id := 0 } (endpointHandle sampleCluster 1 sampleCluster.Write)
      (endpointHandle sampleCluster 0 sampleCluster.Write) (by decide) rfl).2.2.2.1.2.1
      none "down" rfl,
    (executors_propagate failingBackend fourHandles "DELETE FROM t WHERE id = ?" [Arg.int 4]
      { id := 0 } (endpointHandle sampleCluster 1 sampleCluster.Write)
      (endpointHandle sampleCluster 0 sampleCluster.Write) (by decide) rfl).2.2.2.1.1⟩

/-- C7: the log lines of `exec` and `txExec`. When the handle call fails and
the debug flag is false the log is unchanged; when it fails and the flag is
true exactly two lines are appended, the tagged query text and then the
argument values; when the call succeeds the log is unchanged for either
flag. -/
theorem exec_logging (b : Backend) (s : State) (q : String) (args : List Arg) (tx : Tx)
    (w : DB) (hw : s._writeDatabase = some w) :
    ((∀ res e, b.dbExec w q args = (res, some e) →
          (b.AppDebug = false → (exec b s q args).1.log = s.log) ∧
          (b.AppDebug = true → (exec b s q args).1.log =
            s.log ++ ["exec: " ++ q ++ "\n", "args: " ++ fmtArgs args ++ "\n"])) ∧
        (∀ res, b.dbExec w q args = (res, none) → (exec b s q args).1.log = s.log)) ∧
      ((∀ res e, b.txExec tx q args = (res, some e) →
          (b.AppDebug = false → (txExec b s tx q args).1.log = s.log) ∧
          (b.AppDebug = true → (txExec b s tx q args).1.log =
            s.log ++ ["txExec: " ++ q ++ "\n", "args: " ++ fmtArgs args ++ "\n"])) ∧
        (∀ res, b.txExec tx q args = (res, none) → (txExec b s tx q args).1.log = s.log)) := by
  refine ⟨⟨?_, ?_⟩, ⟨?_, ?_⟩⟩
  · intro res e h
    constructor <;> intro hd <;> simp [exec, hw, h, hd, logPrintf]
  · intro res h
    simp [exec, hw, h]
  · intro res e h
    constructor <;> intro hd <;> simp [txExec, h, hd, logPrintf]
  · intro res h
    simp [txExec, h]

theorem exec_logging_witness :
    fourHandles._writeDatabase = some (endpointHandle sampleCluster 0 sampleCluster.Write) ∧
      failingBackend.AppDebug = true ∧
      (exec failingBackend fourHandles "DELETE FROM t WHERE id = ?"
          [Arg.int 4, Arg.str "a", Arg.null]).1.log =
        fourHandles.log ++ ["exec: " ++ "DELETE FROM t WHERE id = ?" ++ "\n",
          "args: " ++ fmtArgs [Arg.int 4, Arg.str "a", Arg.null] ++ "\n"] ∧
      fmtArgs [Arg.int 4, Arg.str "a", Arg.null] = "[4 a <nil>]" :=
  ⟨rfl, rfl,
    ((exec_logging failingBackend fourHandles "DELETE FROM t WHERE id = ?"
      [Arg.int 4, Arg.str "a", Arg.null] { id := 0 }
      (endpointHandle sampleCluster 0 sampleCluster.Write) rfl).1.1 none "down" rfl).2 rfl,
    by decide⟩

theorem readers_all_or_nothing_witness :
    sampleCluster.Read = some
        [{ Host := "r1", Port := 3306, Username := "", Password := "" },
         { Host := "r2", Port := 3307, Username := "ro", Password := "y" }] ∧
      secondReaderDown.sqlOpen sampleCluster.Driver
          (endpointDSN sampleCluster
            { Host := "r2", Port := 3307, Username := "ro", Password := "y" }) =
        some "refused" ∧
      (Init secondReaderDown State.fresh sampleCluster).2 = Go.ret (some "refused") ∧
      (Init secondReaderDown State.fresh sampleCluster).1._readDatabases = [] :=
  ⟨rfl, by decide,
    (((readers_all_or_nothing secondReaderDown State.fresh sampleCluster _ rfl).1
      [{ Host := "r1", Port := 3306, Username := "", Password := "" }]
      { Host := "r2", Port := 3307, Username := "ro", Password := "y" } [] "refused" rfl
      (by decide) (by decide)).2 rfl (by decide)).1,
    (((readers_all_or_nothing secondReaderDown State.fresh sampleCluster _ rfl).1
      [{ Host := "r1", Port := 3306, Username := "", Password := "" }]
      { Host := "r2", Port := 3307, Username := "ro", Password := "y" } [] "refused" rfl
      (by decide) (by decide)).2 rfl (by decide)).2.1⟩

end Repository
